import Mathlib

/-!
Verification development for the bot-deployer server (`src/server.js`).

The repository holds two snapshots of the same Express server, separated by a
marker in `server.js`:
* snapshot A (lines 1-216): deploys to Heroku (create app, set config vars,
  trigger build) before persisting a `deployments` record;
* snapshot B (lines 217-448): the "simulated" variant with MongoDB unique
  indexes on `token` and `name`, persisting `session_id`/`config`, and
  returning `appName` in the deploy response.

We shallowly embed both request handlers.  External collaborators (MongoDB,
the Heroku REST API, the remote pro-users document, `uuidv4`) are modelled as
explicit inputs: an `Env` record carries the outcome of each remote call and
the random strings drawn during the request.  The database is a list of
`Deployment` records; unique-index insertion (snapshot B, lines 249-251) is
modelled by `insertOne`.  Strings are Lean `String`s; JavaScript string
helpers (`trim`, `toLowerCase`, `slice`, regex replaces at line 149) are
embedded character-list-wise, faithful on the ASCII inputs the server deals
with.
-/

namespace BotDeployer

/-- JS `String.prototype.toLowerCase`, ASCII fragment (`username.toLowerCase()`). -/
def strLower (s : String) : String :=
  String.mk (s.data.map Char.toLower)

/-- Whitespace recognised by the embedded `trim`. -/
def isJsWhitespace (c : Char) : Bool :=
  decide (c = ' ') || decide (c = '\t') || decide (c = '\n') || decide (c = '\r')

/-- JS `String.prototype.trim` (`appname?.trim()`). -/
def jsTrim (s : String) : String :=
  String.mk (((s.data.dropWhile isJsWhitespace).reverse.dropWhile isJsWhitespace).reverse)

/-- JS `String.prototype.slice(0, n)` on a string (`uuidv4().slice(0, 6)`). -/
def jsSlice (s : String) (n : Nat) : String :=
  String.mk (s.data.take n)

/-- JS truthiness of a possibly-absent string field (`!username`, `!session_id`):
`undefined`, `null` and `""` are falsy. -/
def jsTruthy : Option String → Bool
  | none => false
  | some s => decide (s ≠ "")

/-- Extract the string out of a field already known to be truthy. -/
def optStr : Option String → String
  | none => ""
  | some s => s

/-- Characters kept by the regex replace `[^a-z0-9-]` at `server.js:149`. -/
def isAllowedChar (c : Char) : Bool :=
  decide ('a' ≤ c ∧ c ≤ 'z') || decide ('0' ≤ c ∧ c ≤ '9') || decide (c = '-')

/-- The second regex replace at `server.js:149` (pattern `-+`, global):
collapse every run of dashes to a single dash.  The boolean records whether
the previous emitted character was a dash of a still-open run. -/
def collapseAux : List Char → Bool → List Char
  | [], _ => []
  | c :: rest, prevDash =>
    if c == '-' then
      (if prevDash then collapseAux rest true else '-' :: collapseAux rest true)
    else c :: collapseAux rest false

/-- The sanitization chain at `server.js:149`: lower-case, replace every
character outside `[a-z0-9-]` by a dash, then collapse dash runs; applied to
the already-trimmed name. -/
def sanitizeName (s : String) : String :=
  String.mk
    (collapseAux ((s.data.map Char.toLower).map
      (fun c => if isAllowedChar c then c else '-')) false)

/-- `generatedAppName` (`server.js:148-150`): sanitize a requested name that is
non-empty after trimming, otherwise synthesize from the bot type and the first
six characters of a fresh uuid. -/
def generatedAppName (appname : Option String) (botType : String) (rand6 : String) : String :=
  match appname with
  | some a => if jsTrim a ≠ "" then sanitizeName (jsTrim a) else botType ++ "md-" ++ rand6
  | none => botType ++ "md-" ++ rand6

/-- Lower-case hexadecimal digit (the alphabet of `uuidv4` apart from dashes). -/
def isHexDigit (c : Char) : Bool :=
  decide ('0' ≤ c ∧ c ≤ '9') || decide ('a' ≤ c ∧ c ≤ 'f')

/-- Matches the pattern: the bot type, then `md-`, then exactly six
hexadecimal characters. -/
def matchesBotPattern (botType s : String) : Bool :=
  decide (s.data.take ((botType ++ "md-").data).length = (botType ++ "md-").data) &&
  decide ((s.data.drop ((botType ++ "md-").data).length).length = 6) &&
  (s.data.drop ((botType ++ "md-").data).length).all isHexDigit

/-- `REPOSITORIES` (`server.js:14-17`). -/
def REPOSITORIES : List (String × String) :=
  [("khan", "https://github.com/JawadTechXD/KHAN-MD/tarball/main"),
   ("jawad", "https://github.com/JawadTechXD/JAWAD-MD/tarball/main")]

/-- JS property access `REPOSITORIES[bot_type]`: `undefined` becomes `none`. -/
def lookupRepo (botType : String) : Option String :=
  REPOSITORIES.lookup botType

/-- One entry of the request `config` object; the handler extracts `.value`
from each entry (`server.js:170`). -/
structure ConfigEntry where
  value : String
deriving Repr, DecidableEq

/-- One document of the `deployments` collection.  Snapshot A inserts the
first five fields (`server.js:192-198`); snapshot B additionally persists
`session_id` and the raw `config` (`server.js:407-415`). -/
structure Deployment where
  username : String
  name : String
  type : String
  token : String
  createdAt : Nat
  session_id : Option String := none
  config : Option (List (String × ConfigEntry)) := none
deriving Repr, DecidableEq

/-- One entry of the remote pro-users document (`server.js:131-136`):
`limit` may be absent. -/
structure ProUser where
  username : String
  limit : Option Nat
deriving Repr, DecidableEq

/-- Body of `POST /deploy` (`server.js:114`). -/
structure DeployRequest where
  username : Option String
  session_id : Option String
  appname : Option String
  bot_type : String
  config : List (String × ConfigEntry)
deriving Repr, DecidableEq

/-- Outcomes of the remote calls a single `POST /deploy` request may make,
together with the random draws of the request.  `Except.error s` models a
rejected promise whose captured detail (`error.response?.data ||
error.message`) is `s`. -/
structure Env where
  countFails : Bool
  proFetch : Except String (List ProUser)
  createAppResult : Except String Unit
  setConfigResult : Except String Unit
  buildResult : Except String Unit
  insertResult : Except String Unit
  nameUuid : String
  tokenUuid : String
  now : Nat
deriving Repr

/-- Remote and store side effects, in the order they are performed. -/
inductive Action where
  | createApp (name : String)
  | setConfig (name : String) (vars : List (String × String))
  | triggerBuild (name : String) (url : Option String)
  | insertRecord (d : Deployment)
  | deleteRemote (name : String)
  | deleteRecord (name : String)
deriving Repr, DecidableEq

/-- Response of `POST /deploy`.  `ok token appName` carries the `appName`
field of the JSON response, which snapshot A omits (`server.js:200-203`) and
snapshot B includes (`server.js:417-421`). -/
inductive DeployResult where
  | errMissingOwner
  | errMissingSession
  | errQuota (current limit : Nat)
  | errProvision (details : String)
  | ok (token : String) (appName : Option String)
deriving Repr, DecidableEq

/-- Response of `DELETE /api/bots/:appName`. -/
inductive DeleteResult where
  | errTokenRequired
  | errInvalidToken
  | errNotAuthorized
  | errInternal
  | okDeleted
deriving Repr, DecidableEq

/-- Projected bot as returned by `GET /api/bots` (`server.js:62-65`):
only `name`, `type`, `createdAt` survive the projection. -/
structure BotView where
  name : String
  type : String
  createdAt : Nat
deriving Repr, DecidableEq

/-- Response of `GET /api/bots`. -/
inductive ListResult where
  | errTokenRequired
  | errInvalidToken
  | ok (bots : List BotView)
deriving Repr, DecidableEq

/-- `db.collection("deployments").countDocuments({username})`. -/
def countDocuments (store : List Deployment) (uname : String) : Nat :=
  (store.filter (fun d => d.username == uname)).length

/-- `db.collection("deployments").findOne({token})`. -/
def findByToken (store : List Deployment) (token : String) : Option Deployment :=
  store.find? (fun d => d.token == token)

/-- `deleteOne({name})`: remove the first document with that name. -/
def deleteOneByName : List Deployment → String → List Deployment
  | [], _ => []
  | d :: rest, n => if d.name == n then rest else d :: deleteOneByName rest n

/-- The E11000 message MongoDB reports when a unique index is violated. -/
def dupKeyMessage (field value : String) : String :=
  "E11000 duplicate key error collection: bot-deployer.deployments index: "
    ++ field ++ "_1 dup key: " ++ value

/-- `insertOne` under the unique indexes snapshot B creates on `name` and
`token` (`server.js:249-251`): inserting a document whose `name` or `token`
already occurs rejects with a duplicate-key error instead of writing. -/
def insertOne (store : List Deployment) (d : Deployment) :
    Except String (List Deployment) :=
  if store.any (fun e => e.name == d.name) then
    .error (dupKeyMessage "name" d.name)
  else if store.any (fun e => e.token == d.token) then
    .error (dupKeyMessage "token" d.token)
  else
    .ok (store ++ [d])

/-- The effective limit of the quota check (`server.js:129-139`): default 2;
if the pro-users fetch succeeds and the owner appears (compared
case-insensitively), `proUser.limit || 5` applies; a failed fetch is only
logged. -/
def userLimit (fetch : Except String (List ProUser)) (username : String) : Nat :=
  match fetch with
  | .error _ => 2
  | .ok proUsers =>
    match proUsers.find? (fun u => strLower u.username == strLower username) with
    | none => 2
    | some proUser =>
      match proUser.limit with
      | none => 5
      | some 0 => 5
      | some l => l

/-- Outcome of the deployment-limit block (`server.js:125-146`). -/
inductive QuotaOutcome where
  | allowed
  | rejected (current limit : Nat)
  | skipped
deriving Repr, DecidableEq

/-- The deployment-limit block (`server.js:125-146`): if `countDocuments`
throws, the outer catch only logs and the request falls through; otherwise
reject when `deployments >= userLimit`. -/
def quotaCheck (store : List Deployment) (countFails : Bool)
    (fetch : Except String (List ProUser)) (username : String) : QuotaOutcome :=
  if countFails then .skipped
  else
    let deployments := countDocuments store (strLower username)
    let limit := userLimit fetch username
    if deployments ≥ limit then .rejected deployments limit else .allowed

/-- The quota rejection message (`server.js:142`). -/
def quotaMessage (current limit : Nat) : String :=
  "You\x27ve reached the maximum deployment limit (" ++ toString current ++ "/"
    ++ toString limit ++ "). Please contact admin."

/-- The `error` field of the JSON error responses of `POST /deploy`. -/
def renderError : DeployResult → Option String
  | .errMissingOwner => some "GitHub username is required"
  | .errMissingSession => some "SESSION_ID is required"
  | .errQuota current limit => some (quotaMessage current limit)
  | .errProvision _ => some "Deployment failed"
  | .ok _ _ => none

/-- The app name a deploy request ends up with, given the environment. -/
def genName (env : Env) (req : DeployRequest) : String :=
  generatedAppName req.appname req.bot_type (jsSlice env.nameUuid 6)

/-- The record snapshot A inserts (`server.js:192-198`). -/
def recordV1 (env : Env) (req : DeployRequest) : Deployment :=
  { username := strLower (optStr req.username)
    name := genName env req
    type := req.bot_type
    token := env.tokenUuid
    createdAt := env.now }

/-- The record snapshot B inserts (`server.js:407-415`). -/
def recordV2 (env : Env) (req : DeployRequest) : Deployment :=
  { username := strLower (optStr req.username)
    name := genName env req
    type := req.bot_type
    token := env.tokenUuid
    createdAt := env.now
    session_id := req.session_id
    config := some req.config }

/-- The try block of snapshot A after the quota check (`server.js:152-211`):
three awaited Heroku calls in order, then token generation and insertion; the
first rejected promise jumps to the catch, which answers with the generic
failure carrying the captured detail.  Returns the response, the side
effects in order, and the resulting store. -/
def provisionV1 (env : Env) (store : List Deployment) (req : DeployRequest) :
    DeployResult × List Action × List Deployment :=
  let name := genName env req
  match env.createAppResult with
  | .error details => (.errProvision details, [.createApp name], store)
  | .ok _ =>
    let vars := req.config.map (fun p => (p.1, p.2.value))
    match env.setConfigResult with
    | .error details =>
      (.errProvision details, [.createApp name, .setConfig name vars], store)
    | .ok _ =>
      match env.buildResult with
      | .error details =>
        (.errProvision details,
         [.createApp name, .setConfig name vars,
          .triggerBuild name (lookupRepo req.bot_type)], store)
      | .ok _ =>
        match env.insertResult with
        | .error details =>
          (.errProvision details,
           [.createApp name, .setConfig name vars,
            .triggerBuild name (lookupRepo req.bot_type)], store)
        | .ok _ =>
          (.ok env.tokenUuid none,
           [.createApp name, .setConfig name vars,
            .triggerBuild name (lookupRepo req.bot_type),
            .insertRecord (recordV1 env req)],
           store ++ [recordV1 env req])

/-- Snapshot A `POST /deploy` (`server.js:113-212`). -/
def deployV1 (env : Env) (store : List Deployment) (req : DeployRequest) :
    DeployResult × List Action × List Deployment :=
  if !(jsTruthy req.username) then (.errMissingOwner, [], store)
  else if !(jsTruthy req.session_id) then (.errMissingSession, [], store)
  else
    match quotaCheck store env.countFails env.proFetch (optStr req.username) with
    | .rejected current limit => (.errQuota current limit, [], store)
    | _ => provisionV1 env store req

/-- The try block of snapshot B after the quota check (`server.js:401-429`):
token generation and insertion against the unique indexes; the response
includes `appName`. -/
def persistV2 (env : Env) (store : List Deployment) (req : DeployRequest) :
    DeployResult × List Action × List Deployment :=
  match insertOne store (recordV2 env req) with
  | .error details => (.errProvision details, [], store)
  | .ok newStore =>
    (.ok env.tokenUuid (some (genName env req)),
     [.insertRecord (recordV2 env req)], newStore)

/-- Snapshot B `POST /deploy` (`server.js:360-430`). -/
def deployV2 (env : Env) (store : List Deployment) (req : DeployRequest) :
    DeployResult × List Action × List Deployment :=
  if !(jsTruthy req.username) then (.errMissingOwner, [], store)
  else if !(jsTruthy req.session_id) then (.errMissingSession, [], store)
  else
    match quotaCheck store env.countFails env.proFetch (optStr req.username) with
    | .rejected current limit => (.errQuota current limit, [], store)
    | _ => persistV2 env store req

/-- Snapshot A `DELETE /api/bots/:appName` (`server.js:75-110`): token
required, token lookup, ownership check, remote Heroku deletion, then local
deletion; a rejected remote call is caught and answered with a 500 before the
local record is touched. -/
def deleteBotV1 (remoteDelete : Except String Unit) (store : List Deployment)
    (appName token : String) : DeleteResult × List Action × List Deployment :=
  if token == "" then (.errTokenRequired, [], store)
  else
    match findByToken store token with
    | none => (.errInvalidToken, [], store)
    | some deployment =>
      if deployment.name ≠ appName then (.errNotAuthorized, [], store)
      else
        match remoteDelete with
        | .error _ => (.errInternal, [.deleteRemote appName], store)
        | .ok _ =>
          (.okDeleted, [.deleteRemote appName, .deleteRecord appName],
           deleteOneByName store appName)

/-- Snapshot B `DELETE /api/bots/:appName` (`server.js:323-357`): identical
checks, but the remote deletion is commented out (`server.js:341-347`); only
the local record is removed. -/
def deleteBotV2 (store : List Deployment) (appName token : String) :
    DeleteResult × List Action × List Deployment :=
  if token == "" then (.errTokenRequired, [], store)
  else
    match findByToken store token with
    | none => (.errInvalidToken, [], store)
    | some deployment =>
      if deployment.name ≠ appName then (.errNotAuthorized, [], store)
      else
        (.okDeleted, [.deleteRecord appName], deleteOneByName store appName)

/-- The projection at `server.js:64`. -/
def projectBot (d : Deployment) : BotView :=
  { name := d.name, type := d.type, createdAt := d.createdAt }

/-- `GET /api/bots` (`server.js:50-72`): token lookup, then all deployments
of the same username, projected. -/
def listBots (store : List Deployment) (token : String) : ListResult :=
  if token == "" then .errTokenRequired
  else
    match findByToken store token with
    | none => .errInvalidToken
    | some deployment =>
      .ok ((store.filter (fun d => d.username == deployment.username)).map projectBot)

/-- `sub` occurs contiguously inside `s`. -/
def hasSubstring (s sub : String) : Prop :=
  ∃ a b, s.data = a ++ sub.data ++ b

/-- No two consecutive dashes occur. -/
def noDoubleDash : List Char → Bool
  | c1 :: c2 :: rest => !(c1 == '-' && c2 == '-') && noDoubleDash (c2 :: rest)
  | _ => true

/-- The list starts with a dash. -/
def headIsDash : List Char → Bool
  | c :: _ => c == '-'
  | [] => false

/-- Concrete fixture: an environment where every remote call succeeds and the
pro-users fetch fails. -/
def envOk : Env :=
  { countFails := false, proFetch := .error "network error"
    createAppResult := .ok (), setConfigResult := .ok (), buildResult := .ok ()
    insertResult := .ok (), nameUuid := "abc123def0", tokenUuid := "tok-1", now := 7 }

/-- Concrete fixture: a stored deployment of owner `alice`. -/
def dAlice : Deployment :=
  { username := "alice", name := "a1", type := "khan", token := "tA", createdAt := 1 }

/-- Concrete fixture: a stored deployment of owner `bob`. -/
def dBob : Deployment :=
  { username := "bob", name := "b1", type := "khan", token := "tB", createdAt := 2 }

/-- Concrete fixture: a second stored deployment of owner `alice`. -/
def dAlice2 : Deployment :=
  { username := "alice", name := "a2", type := "jawad", token := "tC", createdAt := 3 }

/-- Concrete fixture: a request with an unsupported `bot_type`. -/
def reqBogus : DeployRequest :=
  { username := some "Alice", session_id := some "sess", appname := none
    bot_type := "bogus", config := [] }

/-- Concrete fixture: a request whose sanitized name collides with `dAlice`. -/
def reqNamedA1 : DeployRequest :=
  { username := some "Carol", session_id := some "sess", appname := some "a1"
    bot_type := "khan", config := [] }

/-- Concrete fixture: a plain valid `khan` request. -/
def reqKhan : DeployRequest :=
  { username := some "Alice", session_id := some "sess", appname := none
    bot_type := "khan", config := [("SESSION_ID", { value := "s123" })] }

/-- Concrete fixture: `envOk` with a failing config-vars call. -/
def envCfgFail : Env :=
  { envOk with setConfigResult := .error "Invalid credentials provided." }

/-- Concrete fixture: `envOk` with a throwing `countDocuments` call. -/
def envCountFail : Env :=
  { envOk with countFails := true }

theorem strData_append (s t : String) : (s ++ t).data = s.data ++ t.data := by
  cases s; cases t; rfl

theorem not_rejected_of_allowed_or_skipped {q : QuotaOutcome}
    (h : q = .allowed ∨ q = .skipped) : ∀ c l, q ≠ .rejected c l := by
  rcases h with h | h <;> (subst h; intro c l he; exact QuotaOutcome.noConfusion he)

theorem quotaMessage_data (c l : Nat) :
    (quotaMessage c l).data =
      "You\x27ve reached the maximum deployment limit (".data
        ++ (toString c).data ++ "/".data ++ (toString l).data
        ++ "). Please contact admin.".data := by
  simp [quotaMessage, strData_append]

theorem quotaMessage_mentions (c l : Nat) :
    hasSubstring (quotaMessage c l) (toString c)
    ∧ hasSubstring (quotaMessage c l) (toString l) := by
  constructor
  · refine ⟨"You\x27ve reached the maximum deployment limit (".data,
      "/".data ++ (toString l).data ++ "). Please contact admin.".data, ?_⟩
    rw [quotaMessage_data]; simp
  · refine ⟨"You\x27ve reached the maximum deployment limit (".data
        ++ (toString c).data ++ "/".data,
      "). Please contact admin.".data, ?_⟩
    rw [quotaMessage_data]

theorem deployV1_eq_provision (env : Env) (store : List Deployment)
    (req : DeployRequest)
    (h1 : jsTruthy req.username = true) (h2 : jsTruthy req.session_id = true)
    (hq : ∀ c l, quotaCheck store env.countFails env.proFetch (optStr req.username)
            ≠ .rejected c l) :
    deployV1 env store req = provisionV1 env store req := by
  unfold deployV1
  rw [h1, h2]
  simp only [Bool.not_true, Bool.false_eq_true, if_false]

theorem deployV2_eq_persist (env : Env) (store : List Deployment)
    (req : DeployRequest)
    (h1 : jsTruthy req.username = true) (h2 : jsTruthy req.session_id = true)
    (hq : ∀ c l, quotaCheck store env.countFails env.proFetch (optStr req.username)
            ≠ .rejected c l) :
    deployV2 env store req = persistV2 env store req := by
  unfold deployV2
  rw [h1, h2]
  simp only [Bool.not_true, Bool.false_eq_true, if_false]

theorem quotaCheck_skipped (env : Env) (store : List Deployment) (uname : String)
    (hfail : env.countFails = true) :
    quotaCheck store env.countFails env.proFetch uname = .skipped := by
  rw [hfail]; rfl

theorem quotaCheck_of_lt (store : List Deployment)
    (fetch : Except String (List ProUser)) (uname : String)
    (h : countDocuments store (strLower uname) < userLimit fetch uname) :
    quotaCheck store false fetch uname = .allowed := by
  unfold quotaCheck
  simp only [Bool.false_eq_true, if_false]
  rw [if_neg (by omega)]

theorem quotaCheck_of_ge (store : List Deployment)
    (fetch : Except String (List ProUser)) (uname : String)
    (h : ¬ countDocuments store (strLower uname) < userLimit fetch uname) :
    quotaCheck store false fetch uname =
      .rejected (countDocuments store (strLower uname)) (userLimit fetch uname) := by
  unfold quotaCheck
  simp only [Bool.false_eq_true, if_false]
  rw [if_pos (by omega)]

theorem provisionV1_head (env : Env) (store : List Deployment) (req : DeployRequest) :
    (provisionV1 env store req).2.1.head? = some (.createApp (genName env req)) := by
  unfold provisionV1
  cases env.createAppResult <;> cases env.setConfigResult <;>
    cases env.buildResult <;> cases env.insertResult <;> simp

theorem provisionV1_not_quota (env : Env) (store : List Deployment)
    (req : DeployRequest) (c l : Nat) :
    (provisionV1 env store req).1 ≠ .errQuota c l := by
  unfold provisionV1
  cases env.createAppResult <;> cases env.setConfigResult <;>
    cases env.buildResult <;> cases env.insertResult <;> simp

theorem persistV2_not_quota (env : Env) (store : List Deployment)
    (req : DeployRequest) (c l : Nat) :
    (persistV2 env store req).1 ≠ .errQuota c l := by
  unfold persistV2
  cases insertOne store (recordV2 env req) <;> simp

theorem deployV1_quota_reject (env : Env) (store : List Deployment)
    (req : DeployRequest)
    (h1 : jsTruthy req.username = true) (h2 : jsTruthy req.session_id = true)
    (hcount : env.countFails = false)
    (h : ¬ countDocuments store (strLower (optStr req.username))
          < userLimit env.proFetch (optStr req.username)) :
    deployV1 env store req =
      (.errQuota (countDocuments store (strLower (optStr req.username)))
        (userLimit env.proFetch (optStr req.username)), [], store) := by
  unfold deployV1
  rw [h1, h2]
  simp only [Bool.not_true, Bool.false_eq_true, if_false]
  rw [hcount, quotaCheck_of_ge _ _ _ h]

theorem deployV2_quota_reject (env : Env) (store : List Deployment)
    (req : DeployRequest)
    (h1 : jsTruthy req.username = true) (h2 : jsTruthy req.session_id = true)
    (hcount : env.countFails = false)
    (h : ¬ countDocuments store (strLower (optStr req.username))
          < userLimit env.proFetch (optStr req.username)) :
    deployV2 env store req =
      (.errQuota (countDocuments store (strLower (optStr req.username)))
        (userLimit env.proFetch (optStr req.username)), [], store) := by
  unfold deployV2
  rw [h1, h2]
  simp only [Bool.not_true, Bool.false_eq_true, if_false]
  rw [hcount, quotaCheck_of_ge _ _ _ h]

theorem collapseAux_all_allowed : ∀ (l : List Char) (b : Bool),
    (∀ c ∈ l, isAllowedChar c = true) →
    ∀ c ∈ collapseAux l b, isAllowedChar c = true := by
  intro l
  induction l with
  | nil => intro b h c hc; simp [collapseAux] at hc
  | cons x rest ih =>
    intro b h c hc
    have hrest : ∀ c ∈ rest, isAllowedChar c = true :=
      fun c hc => h c (List.mem_cons_of_mem x hc)
    by_cases hx : (x == '-') = true
    · cases b with
      | true =>
        rw [collapseAux, if_pos hx, if_pos rfl] at hc
        exact ih true hrest c hc
      | false =>
        rw [collapseAux, if_pos hx, if_neg (by simp)] at hc
        rcases List.mem_cons.mp hc with h1 | h1
        · subst h1; decide
        · exact ih true hrest c h1
    · rw [collapseAux, if_neg hx] at hc
      rcases List.mem_cons.mp hc with h1 | h1
      · subst h1; exact h _ (List.mem_cons_self _ _)
      · exact ih false hrest c h1

theorem noDoubleDash_cons_of (c : Char) (l : List Char)
    (hnd : noDoubleDash l = true)
    (hOk : (c == '-') = false ∨ headIsDash l = false) :
    noDoubleDash (c :: l) = true := by
  cases l with
  | nil => rfl
  | cons c2 r =>
    rw [noDoubleDash, Bool.and_eq_true]
    refine ⟨?_, hnd⟩
    rcases hOk with h | h
    · simp [h]
    · have : (c2 == '-') = false := h
      simp [this]

theorem collapseAux_noDoubleDash : ∀ (l : List Char) (b : Bool),
    noDoubleDash (collapseAux l b) = true
    ∧ (b = true → headIsDash (collapseAux l b) = false) := by
  intro l
  induction l with
  | nil => intro b; exact ⟨rfl, fun _ => rfl⟩
  | cons x rest ih =>
    intro b
    by_cases hx : (x == '-') = true
    · cases b with
      | true =>
        rw [collapseAux, if_pos hx, if_pos rfl]
        exact ⟨(ih true).1, fun _ => (ih true).2 rfl⟩
      | false =>
        rw [collapseAux, if_pos hx, if_neg (by simp)]
        constructor
        · exact noDoubleDash_cons_of _ _ (ih true).1 (Or.inr ((ih true).2 rfl))
        · intro h; exact absurd h (by simp)
    · rw [collapseAux, if_neg hx]
      refine ⟨noDoubleDash_cons_of _ _ (ih false).1 (Or.inl (by simpa using hx)), ?_⟩
      intro _
      show (x == '-') = false
      simpa using hx

theorem deployV1_rejected_eq (env : Env) (store : List Deployment)
    (req : DeployRequest)
    (h1 : jsTruthy req.username = true) (h2 : jsTruthy req.session_id = true)
    (c l : Nat)
    (hqc : quotaCheck store env.countFails env.proFetch (optStr req.username)
            = .rejected c l) :
    deployV1 env store req = (.errQuota c l, [], store) := by
  unfold deployV1
  rw [h1, h2]
  simp only [Bool.not_true, Bool.false_eq_true, if_false]
  rw [hqc]

theorem deployV2_rejected_eq (env : Env) (store : List Deployment)
    (req : DeployRequest)
    (h1 : jsTruthy req.username = true) (h2 : jsTruthy req.session_id = true)
    (c l : Nat)
    (hqc : quotaCheck store env.countFails env.proFetch (optStr req.username)
            = .rejected c l) :
    deployV2 env store req = (.errQuota c l, [], store) := by
  unfold deployV2
  rw [h1, h2]
  simp only [Bool.not_true, Bool.false_eq_true, if_false]
  rw [hqc]

theorem provisionV1_cases (env : Env) (store : List Deployment)
    (req : DeployRequest) :
    (∃ d, (provisionV1 env store req).1 = .errProvision d)
    ∨ (provisionV1 env store req).1 = .ok env.tokenUuid none := by
  unfold provisionV1
  cases env.createAppResult <;> cases env.setConfigResult <;>
    cases env.buildResult <;> cases env.insertResult <;> simp

theorem persistV2_cases (env : Env) (store : List Deployment)
    (req : DeployRequest) :
    (∃ d, (persistV2 env store req).1 = .errProvision d)
    ∨ (persistV2 env store req).1 = .ok env.tokenUuid (some (genName env req)) := by
  unfold persistV2
  cases insertOne store (recordV2 env req) <;> simp

theorem matchesBotPattern_append (bt r : String) (hlen : r.data.length = 6)
    (hhex : r.data.all isHexDigit = true) :
    matchesBotPattern bt (bt ++ "md-" ++ r) = true := by
  unfold matchesBotPattern
  rw [strData_append (bt ++ "md-") r, List.take_left, List.drop_left, hlen, hhex]
  simp

theorem sanitizeName_wellFormed (s : String) :
    (sanitizeName s).data.all isAllowedChar = true
    ∧ noDoubleDash (sanitizeName s).data = true := by
  constructor
  · rw [List.all_eq_true]
    apply collapseAux_all_allowed
    intro c hc
    rw [List.mem_map] at hc
    obtain ⟨c0, _, hc0⟩ := hc
    by_cases ha : isAllowedChar c0 = true
    · rw [← hc0, if_pos ha]; exact ha
    · rw [← hc0, if_neg ha]; decide
  · exact (collapseAux_noDoubleDash _ false).1

/-- C2 (counterexample): a request whose `bot_type` "bogus" is not a key of
`REPOSITORIES` is not rejected by validation: with username and session
present it proceeds to a successful deployment in snapshot B, and in
snapshot A as well when the provider calls succeed — the code contains no
UnsupportedBotType check. -/
theorem c2_no_bottype_validation_cex :
    lookupRepo "bogus" = none
    ∧ (deployV2 envOk [] reqBogus).1 = .ok "tok-1" (some "bogusmd-abc123")
    ∧ (deployV1 envOk [] reqBogus).1 = .ok "tok-1" none := by
  refine ⟨by decide, by decide, by decide⟩

/-- C2 (amended): validation checks, in order, that the owner is present
(else the missing-owner error) and that the session identifier is present
(else the missing-session error), both before any remote side effect; the
bot type is never validated, and every request passing the two checks
proceeds past validation regardless of its `bot_type`. -/
theorem c2_validation_order (env : Env) (store : List Deployment)
    (req : DeployRequest) :
    (jsTruthy req.username = false →
      deployV1 env store req = (.errMissingOwner, [], store)
      ∧ deployV2 env store req = (.errMissingOwner, [], store))
    ∧ (jsTruthy req.username = true → jsTruthy req.session_id = false →
      deployV1 env store req = (.errMissingSession, [], store)
      ∧ deployV2 env store req = (.errMissingSession, [], store))
    ∧ (jsTruthy req.username = true → jsTruthy req.session_id = true →
      (deployV1 env store req).1 ≠ .errMissingOwner
      ∧ (deployV1 env store req).1 ≠ .errMissingSession
      ∧ (deployV2 env store req).1 ≠ .errMissingOwner
      ∧ (deployV2 env store req).1 ≠ .errMissingSession) := by
  refine ⟨?_, ?_, ?_⟩
  · intro h
    refine ⟨?_, ?_⟩
    · unfold deployV1; rw [h]; rfl
    · unfold deployV2; rw [h]; rfl
  · intro h1 h2
    refine ⟨?_, ?_⟩
    · unfold deployV1; rw [h1, h2]; rfl
    · unfold deployV2; rw [h1, h2]; rfl
  · intro h1 h2
    rcases hqc : quotaCheck store env.countFails env.proFetch (optStr req.username)
      with _ | ⟨c, l⟩ | _
    case rejected =>
      rw [deployV1_rejected_eq env store req h1 h2 c l hqc,
        deployV2_rejected_eq env store req h1 h2 c l hqc]
      refine ⟨by simp, by simp, by simp, by simp⟩
    all_goals
      have hq : ∀ c l, quotaCheck store env.countFails env.proFetch
          (optStr req.username) ≠ .rejected c l := by
        intro c l h; rw [hqc] at h; exact QuotaOutcome.noConfusion h
      rw [deployV1_eq_provision env store req h1 h2 hq,
        deployV2_eq_persist env store req h1 h2 hq]
      rcases provisionV1_cases env store req with ⟨d, hd⟩ | hd <;>
        rcases persistV2_cases env store req with ⟨d2, hd2⟩ | hd2 <;>
        rw [hd, hd2] <;> refine ⟨by simp, by simp, by simp, by simp⟩

/-- C2 witness: a concrete missing-owner request is rejected with the
missing-owner error and no side effect. -/
theorem c2_validation_order_witness :
    deployV1 envOk [dAlice]
        { username := none, session_id := some "sess", appname := none
          bot_type := "khan", config := [] }
      = (.errMissingOwner, [], [dAlice])
    ∧ deployV2 envOk [dAlice]
        { username := none, session_id := some "sess", appname := none
          bot_type := "khan", config := [] }
      = (.errMissingOwner, [], [dAlice]) :=
  (c2_validation_order envOk [dAlice] _).1 (by decide)

/-- C3 (counterexample): the code sanitizes "My Bot!!" to "my-bot-" — the
collapsed dash run at the end is kept as a trailing dash — not to "my-bot"
as the claim states. -/
theorem c3_sanitize_mybot_cex :
    generatedAppName (some "My Bot!!") "khan" "abc123" = "my-bot-"
    ∧ ("my-bot-" : String) ≠ "my-bot" := by
  refine ⟨by decide, by decide⟩

/-- C3 (amended): a requested name that is non-empty after trimming is
lower-cased, every character outside the allowed set is replaced by a dash
and dash runs are collapsed, so "My Bot!!" yields exactly "my-bot-" (the
trailing dash is not stripped); the sanitized result consists only of
allowed characters and never has two consecutive dashes.  An empty or
absent requested name yields the bot type followed by "md-" and the six
hexadecimal uuid characters, matching the khanmd- pattern for bot type
"khan". -/
theorem c3_name_generation (r : String) (hlen : r.data.length = 6)
    (hhex : r.data.all isHexDigit = true) :
    generatedAppName (some "My Bot!!") "khan" r = "my-bot-"
    ∧ generatedAppName (some "") "khan" r = "khan" ++ "md-" ++ r
    ∧ generatedAppName none "khan" r = "khan" ++ "md-" ++ r
    ∧ matchesBotPattern "khan" (generatedAppName none "khan" r) = true
    ∧ (∀ s, jsTrim s ≠ "" →
        generatedAppName (some s) "khan" r = sanitizeName (jsTrim s))
    ∧ (∀ s, (sanitizeName s).data.all isAllowedChar = true
        ∧ noDoubleDash (sanitizeName s).data = true) := by
  have hmy : generatedAppName (some "My Bot!!") "khan" r = "my-bot-" := by
    simp only [generatedAppName]
    rw [if_pos (by decide)]
    decide
  have hempty : generatedAppName (some "") "khan" r = "khan" ++ "md-" ++ r := by
    simp only [generatedAppName]
    rw [if_neg (by decide)]
  refine ⟨hmy, hempty, rfl,
    matchesBotPattern_append "khan" r hlen hhex, ?_, sanitizeName_wellFormed⟩
  intro s hs
  simp only [generatedAppName]
  rw [if_pos hs]

/-- C3 witness: the amended statement at the concrete uuid prefix
"0af9e3". -/
theorem c3_name_generation_witness :
    ("0af9e3" : String).data.length = 6
    ∧ ("0af9e3" : String).data.all isHexDigit = true
    ∧ generatedAppName none "khan" "0af9e3" = "khan" ++ "md-" ++ "0af9e3"
    ∧ matchesBotPattern "khan" (generatedAppName none "khan" "0af9e3") = true :=
  ⟨by decide, by decide,
    (c3_name_generation "0af9e3" (by decide) (by decide)).2.2.1,
    (c3_name_generation "0af9e3" (by decide) (by decide)).2.2.2.1⟩

/-- C7: deleting with a token owned by no stored deployment answers
InvalidToken with no remote call and no store mutation; a token whose
deployment's name differs from the requested app answers NotAuthorized and
leaves every record untouched — in both snapshots. -/
theorem c7_delete_guards (rd : Except String Unit) (store : List Deployment)
    (appName token : String) (htok : token ≠ "") :
    (findByToken store token = none →
      deleteBotV1 rd store appName token = (.errInvalidToken, [], store)
      ∧ deleteBotV2 store appName token = (.errInvalidToken, [], store))
    ∧ (∀ d, findByToken store token = some d → d.name ≠ appName →
      deleteBotV1 rd store appName token = (.errNotAuthorized, [], store)
      ∧ deleteBotV2 store appName token = (.errNotAuthorized, [], store)) := by
  have ht : (token == "") = false := beq_eq_false_iff_ne.mpr htok
  refine ⟨?_, ?_⟩
  · intro hf
    refine ⟨?_, ?_⟩
    · simp [deleteBotV1, ht, hf]
    · simp [deleteBotV2, ht, hf]
  · intro d hf hn
    refine ⟨?_, ?_⟩
    · simp [deleteBotV1, ht, hf, hn]
    · simp [deleteBotV2, ht, hf, hn]

/-- C7 witness: an unknown token against a concrete store. -/
theorem c7_delete_guards_witness :
    ("zz" : String) ≠ ""
    ∧ (deleteBotV1 (.ok ()) [dAlice] "a1" "zz" = (.errInvalidToken, [], [dAlice])
       ∧ deleteBotV2 [dAlice] "a1" "zz" = (.errInvalidToken, [], [dAlice])) :=
  ⟨by decide,
    (c7_delete_guards (.ok ()) [dAlice] "a1" "zz" (by decide)).1 (by decide)⟩

/-- C8 (counterexample): in snapshot A, an authorized deletion whose remote
Heroku call fails — e.g. the app is already gone, which the HTTP client
surfaces as a rejected promise — returns a 500 and leaves the local record
in place; in snapshot B the remote deletion is never attempted (only the
local record is removed).  Both contradict the claimed always-attempt /
tolerate-already-gone / always-remove-local policy. -/
theorem c8_delete_policy_cex :
    deleteBotV1 (.error "Request failed with status code 404") [dAlice] "a1" "tA"
      = (.errInternal, [.deleteRemote "a1"], [dAlice])
    ∧ deleteBotV2 [dAlice] "a1" "tA" = (.okDeleted, [.deleteRecord "a1"], []) := by
  refine ⟨by decide, by decide⟩

/-- C8 (amended): for an authorized deletion, snapshot A attempts the remote
deletion first and, if it succeeds, removes the local record; if the remote
call fails (already-gone included) it answers a 500 internal error and the
local record is NOT removed.  Snapshot B never attempts the remote deletion
and always removes the local record. -/
theorem c8_delete_authorized (rd : Except String Unit) (store : List Deployment)
    (appName token : String) (htok : token ≠ "") (d : Deployment)
    (hf : findByToken store token = some d) (hn : d.name = appName) :
    (rd = .ok () → deleteBotV1 rd store appName token
      = (.okDeleted, [.deleteRemote appName, .deleteRecord appName],
         deleteOneByName store appName))
    ∧ (∀ e, rd = .error e → deleteBotV1 rd store appName token
      = (.errInternal, [.deleteRemote appName], store))
    ∧ deleteBotV2 store appName token
      = (.okDeleted, [.deleteRecord appName], deleteOneByName store appName) := by
  have ht : (token == "") = false := beq_eq_false_iff_ne.mpr htok
  have hnn : ¬ d.name ≠ appName := fun h => h hn
  refine ⟨?_, ?_, ?_⟩
  · intro hr
    simp [deleteBotV1, ht, hf, hn, hr]
  · intro e hr
    simp [deleteBotV1, ht, hf, hn, hr]
  · simp [deleteBotV2, ht, hf, hn]

/-- C8 witness: the amended statement at a concrete authorized deletion. -/
theorem c8_delete_authorized_witness :
    ("tA" : String) ≠ ""
    ∧ findByToken [dAlice, dBob] "tA" = some dAlice
    ∧ dAlice.name = "a1"
    ∧ deleteBotV2 [dAlice, dBob] "a1" "tA"
        = (.okDeleted, [.deleteRecord "a1"], deleteOneByName [dAlice, dBob] "a1") :=
  ⟨by decide, by decide, by decide,
    (c8_delete_authorized (.ok ()) [dAlice, dBob] "a1" "tA" (by decide) dAlice
      (by decide) (by decide)).2.2⟩

/-- C9: listing with a token owned by some stored deployment returns exactly
the projections (name, type, createdAt only) of the deployments whose stored
owner equals that deployment's owner, and never a deployment of another
owner; a token owned by no deployment answers InvalidToken. -/
theorem c9_list_bots (store : List Deployment) (token : String)
    (htok : token ≠ "") :
    (findByToken store token = none → listBots store token = .errInvalidToken)
    ∧ (∀ d, findByToken store token = some d →
        ∃ bots, listBots store token = .ok bots
          ∧ ∀ b, b ∈ bots ↔
              ∃ e, e ∈ store ∧ e.username = d.username ∧ projectBot e = b) := by
  have ht : (token == "") = false := beq_eq_false_iff_ne.mpr htok
  refine ⟨?_, ?_⟩
  · intro hf
    simp [listBots, ht, hf]
  · intro d hf
    refine ⟨(store.filter (fun e => e.username == d.username)).map projectBot, ?_, ?_⟩
    · simp [listBots, ht, hf]
    · intro b
      simp only [List.mem_map, List.mem_filter, beq_iff_eq]
      constructor
      · rintro ⟨e, ⟨he, heq⟩, hb⟩
        exact ⟨e, he, heq, hb⟩
      · rintro ⟨e, he, heq, hb⟩
        exact ⟨e, ⟨he, heq⟩, hb⟩

/-- C9 witness: listing alice's deployments out of a mixed store. -/
theorem c9_list_bots_witness :
    ("tA" : String) ≠ ""
    ∧ findByToken [dAlice, dBob, dAlice2] "tA" = some dAlice
    ∧ ∃ bots, listBots [dAlice, dBob, dAlice2] "tA" = .ok bots
        ∧ ∀ b, b ∈ bots ↔
            ∃ e, e ∈ [dAlice, dBob, dAlice2] ∧ e.username = dAlice.username
              ∧ projectBot e = b :=
  ⟨by decide, by decide,
    (c9_list_bots [dAlice, dBob, dAlice2] "tA" (by decide)).2 dAlice (by decide)⟩

/-- C4: once validation passes and quota does not reject, snapshot A runs
create-app, set-config-vars (each entry's `.value`), and trigger-build (from
the bot type's archive URL) in this order; the first failing step aborts the
remaining steps, answers the provisioning failure carrying the provider's
captured detail, and leaves the store untouched; the token is drawn and the
record inserted only after all three steps succeed. -/
theorem c4_provisioning_sequence (env : Env) (store : List Deployment)
    (req : DeployRequest)
    (h1 : jsTruthy req.username = true) (h2 : jsTruthy req.session_id = true)
    (hq : quotaCheck store env.countFails env.proFetch (optStr req.username)
            = .allowed
          ∨ quotaCheck store env.countFails env.proFetch (optStr req.username)
            = .skipped) :
    (∀ e, env.createAppResult = .error e →
      deployV1 env store req
        = (.errProvision e, [.createApp (genName env req)], store))
    ∧ (∀ e, env.createAppResult = .ok () → env.setConfigResult = .error e →
      deployV1 env store req
        = (.errProvision e,
           [.createApp (genName env req),
            .setConfig (genName env req)
              (req.config.map (fun p => (p.1, p.2.value)))], store))
    ∧ (∀ e, env.createAppResult = .ok () → env.setConfigResult = .ok () →
        env.buildResult = .error e →
      deployV1 env store req
        = (.errProvision e,
           [.createApp (genName env req),
            .setConfig (genName env req)
              (req.config.map (fun p => (p.1, p.2.value))),
            .triggerBuild (genName env req) (lookupRepo req.bot_type)], store))
    ∧ (env.createAppResult = .ok () → env.setConfigResult = .ok () →
        env.buildResult = .ok () → env.insertResult = .ok () →
      deployV1 env store req
        = (.ok env.tokenUuid none,
           [.createApp (genName env req),
            .setConfig (genName env req)
              (req.config.map (fun p => (p.1, p.2.value))),
            .triggerBuild (genName env req) (lookupRepo req.bot_type),
            .insertRecord (recordV1 env req)],
           store ++ [recordV1 env req])) := by
  have he := deployV1_eq_provision env store req h1 h2
    (not_rejected_of_allowed_or_skipped hq)
  refine ⟨?_, ?_, ?_, ?_⟩
  · intro e h
    rw [he]; simp [provisionV1, h]
  · intro e hc hs
    rw [he]; simp [provisionV1, hc, hs]
  · intro e hc hs hb
    rw [he]; simp [provisionV1, hc, hs, hb]
  · intro hc hs hb hi
    rw [he]; simp [provisionV1, hc, hs, hb, hi]

/-- C4 witness: a concrete deployment whose config-vars step fails keeps the
store unchanged and stops after two remote calls. -/
theorem c4_provisioning_sequence_witness :
    envCfgFail.createAppResult = .ok ()
    ∧ envCfgFail.setConfigResult = .error "Invalid credentials provided."
    ∧ deployV1 envCfgFail [] reqKhan
      = (.errProvision "Invalid credentials provided.",
         [.createApp (genName envCfgFail reqKhan),
          .setConfig (genName envCfgFail reqKhan)
            (reqKhan.config.map (fun p => (p.1, p.2.value)))], []) :=
  ⟨rfl, rfl,
    (c4_provisioning_sequence envCfgFail [] reqKhan (by decide) (by decide)
      (Or.inl (by decide))).2.1 "Invalid credentials provided." rfl rfl⟩

/-- C5 (counterexample): snapshot A's success response carries no appName —
the JSON at `server.js:200-203` returns only message and token — so a valid,
quota-allowed deployment succeeds without the generated name in the
response. -/
theorem c5_response_missing_appname_cex :
    (deployV1 envOk [] reqKhan).1 = .ok "tok-1" none
    ∧ (∀ n, (deployV1 envOk [] reqKhan).1 ≠ .ok "tok-1" (some n)) := by
  have h0 : (deployV1 envOk [] reqKhan).1 = .ok "tok-1" none := by decide
  refine ⟨h0, ?_⟩
  intro n h
  rw [h0] at h
  simp at h

/-- C5 (amended): for a valid, quota-allowed deployment, snapshot B's
response carries both the token and the generated appName while snapshot A's
response carries only the token; in both snapshots, provided the drawn token
and generated name are fresh, the stored record's name is the generated name
and the token identifies exactly that one record. -/
theorem c5_deploy_success_record (env : Env) (store : List Deployment)
    (req : DeployRequest)
    (h1 : jsTruthy req.username = true) (h2 : jsTruthy req.session_id = true)
    (hq : quotaCheck store env.countFails env.proFetch (optStr req.username)
            = .allowed
          ∨ quotaCheck store env.countFails env.proFetch (optStr req.username)
            = .skipped)
    (hname : ∀ d ∈ store, d.name ≠ genName env req)
    (htok : ∀ d ∈ store, d.token ≠ env.tokenUuid) :
    deployV2 env store req
      = (.ok env.tokenUuid (some (genName env req)),
         [.insertRecord (recordV2 env req)], store ++ [recordV2 env req])
    ∧ (recordV2 env req).name = genName env req
    ∧ (recordV2 env req).token = env.tokenUuid
    ∧ (store ++ [recordV2 env req]).filter (fun d => d.token == env.tokenUuid)
        = [recordV2 env req]
    ∧ (env.createAppResult = .ok () → env.setConfigResult = .ok () →
        env.buildResult = .ok () → env.insertResult = .ok () →
      (deployV1 env store req).1 = .ok env.tokenUuid none
      ∧ (deployV1 env store req).2.2 = store ++ [recordV1 env req]
      ∧ (store ++ [recordV1 env req]).filter (fun d => d.token == env.tokenUuid)
          = [recordV1 env req]) := by
  have hanyn : store.any (fun e => e.name == (recordV2 env req).name) = false := by
    rw [List.any_eq_false]
    intro d hd
    simpa using hname d hd
  have hanyt : store.any (fun e => e.token == (recordV2 env req).token) = false := by
    rw [List.any_eq_false]
    intro d hd
    simpa using htok d hd
  have hins : insertOne store (recordV2 env req) = .ok (store ++ [recordV2 env req]) := by
    unfold insertOne
    rw [if_neg (by rw [hanyn]; exact Bool.false_ne_true),
      if_neg (by rw [hanyt]; exact Bool.false_ne_true)]
  have hfilter : store.filter (fun d => d.token == env.tokenUuid) = [] := by
    rw [List.filter_eq_nil_iff]
    intro d hd
    simpa using htok d hd
  have he2 := deployV2_eq_persist env store req h1 h2
    (not_rejected_of_allowed_or_skipped hq)
  refine ⟨?_, rfl, rfl, ?_, ?_⟩
  · rw [he2]; unfold persistV2; rw [hins]
  · rw [List.filter_append, hfilter]
    simp [recordV2]
  · intro hc hs hb hi
    have he1 := deployV1_eq_provision env store req h1 h2
      (not_rejected_of_allowed_or_skipped hq)
    have hp : deployV1 env store req
        = (.ok env.tokenUuid none,
           [.createApp (genName env req),
            .setConfig (genName env req)
              (req.config.map (fun p => (p.1, p.2.value))),
            .triggerBuild (genName env req) (lookupRepo req.bot_type),
            .insertRecord (recordV1 env req)],
           store ++ [recordV1 env req]) := by
      rw [he1]; simp [provisionV1, hc, hs, hb, hi]
    refine ⟨by rw [hp], by rw [hp], ?_⟩
    rw [List.filter_append, hfilter]
    simp [recordV1]

/-- C5 witness: the amended statement at a concrete fresh deployment. -/
theorem c5_deploy_success_record_witness :
    (∀ d ∈ [dBob], d.name ≠ genName envOk reqKhan)
    ∧ (∀ d ∈ [dBob], d.token ≠ envOk.tokenUuid)
    ∧ deployV2 envOk [dBob] reqKhan
      = (.ok envOk.tokenUuid (some (genName envOk reqKhan)),
         [.insertRecord (recordV2 envOk reqKhan)], [dBob] ++ [recordV2 envOk reqKhan])
    ∧ ([dBob] ++ [recordV2 envOk reqKhan]).filter
        (fun d => d.token == envOk.tokenUuid) = [recordV2 envOk reqKhan] :=
  ⟨by decide, by decide,
    (c5_deploy_success_record envOk [dBob] reqKhan (by decide) (by decide)
      (Or.inl (by decide)) (by decide) (by decide)).1,
    (c5_deploy_success_record envOk [dBob] reqKhan (by decide) (by decide)
      (Or.inl (by decide)) (by decide) (by decide)).2.2.2.1⟩

/-- C6 (counterexample): a deployment colliding on an existing app name is
answered by snapshot B with the very same generic failure label used for
every other provisioning failure ("Deployment failed", the duplicate-key
message only in details) — no distinct DuplicateAppName error exists in the
code. -/
theorem c6_duplicate_name_cex :
    deployV2 envOk [dAlice] reqNamedA1
      = (.errProvision (dupKeyMessage "name" "a1"), [], [dAlice])
    ∧ renderError (deployV2 envOk [dAlice] reqNamedA1).1 = some "Deployment failed"
    ∧ renderError (.errProvision "any other provisioning failure")
        = some "Deployment failed" := by
  refine ⟨by decide, by decide, rfl⟩

/-- C6 (amended): when the insert hits the `name` unique index, snapshot B's
generic catch answers the generic "Deployment failed" error with the
duplicate-key message as details and writes nothing; no duplicate-specific
error kind is surfaced. -/
theorem c6_duplicate_name_generic (env : Env) (store : List Deployment)
    (req : DeployRequest)
    (h1 : jsTruthy req.username = true) (h2 : jsTruthy req.session_id = true)
    (hq : quotaCheck store env.countFails env.proFetch (optStr req.username)
            = .allowed
          ∨ quotaCheck store env.countFails env.proFetch (optStr req.username)
            = .skipped)
    (hdup : store.any (fun e => e.name == genName env req) = true) :
    deployV2 env store req
      = (.errProvision (dupKeyMessage "name" (genName env req)), [], store)
    ∧ renderError (deployV2 env store req).1 = some "Deployment failed" := by
  have hdup2 : store.any (fun e => e.name == (recordV2 env req).name) = true := hdup
  have hins : insertOne store (recordV2 env req)
      = .error (dupKeyMessage "name" (genName env req)) := by
    unfold insertOne
    rw [if_pos hdup2]
    rfl
  have he2 := deployV2_eq_persist env store req h1 h2
    (not_rejected_of_allowed_or_skipped hq)
  have heq : deployV2 env store req
      = (.errProvision (dupKeyMessage "name" (genName env req)), [], store) := by
    rw [he2]; unfold persistV2; rw [hins]
  exact ⟨heq, by rw [heq]; rfl⟩

/-- C6 witness: the amended statement at the concrete collision. -/
theorem c6_duplicate_name_generic_witness :
    ([dAlice].any (fun e => e.name == genName envOk reqNamedA1)) = true
    ∧ deployV2 envOk [dAlice] reqNamedA1
      = (.errProvision (dupKeyMessage "name" (genName envOk reqNamedA1)), [], [dAlice])
    ∧ renderError (deployV2 envOk [dAlice] reqNamedA1).1 = some "Deployment failed" :=
  ⟨by decide,
    (c6_duplicate_name_generic envOk [dAlice] reqNamedA1 (by decide) (by decide)
      (Or.inl (by decide)) (by decide)).1,
    (c6_duplicate_name_generic envOk [dAlice] reqNamedA1 (by decide) (by decide)
      (Or.inl (by decide)) (by decide)).2⟩

/-- C10: when the store count throws during the quota check, the error is
only logged: the request is never rejected for quota and proceeds to name
generation and provisioning (snapshot A) respectively persistence
(snapshot B) exactly as if no quota check existed, whatever the store
holds. -/
theorem c10_count_failure_skips_quota (env : Env) (store : List Deployment)
    (req : DeployRequest) (hfail : env.countFails = true)
    (h1 : jsTruthy req.username = true) (h2 : jsTruthy req.session_id = true) :
    quotaCheck store env.countFails env.proFetch (optStr req.username) = .skipped
    ∧ deployV1 env store req = provisionV1 env store req
    ∧ deployV2 env store req = persistV2 env store req
    ∧ (∀ c l, (deployV1 env store req).1 ≠ .errQuota c l)
    ∧ (∀ c l, (deployV2 env store req).1 ≠ .errQuota c l)
    ∧ (deployV1 env store req).2.1.head? = some (.createApp (genName env req)) := by
  have hs := quotaCheck_skipped env store (optStr req.username) hfail
  have hq : ∀ c l, quotaCheck store env.countFails env.proFetch (optStr req.username)
      ≠ .rejected c l := not_rejected_of_allowed_or_skipped (Or.inr hs)
  have he1 := deployV1_eq_provision env store req h1 h2 hq
  have he2 := deployV2_eq_persist env store req h1 h2 hq
  refine ⟨hs, he1, he2, ?_, ?_, ?_⟩
  · intro c l; rw [he1]; exact provisionV1_not_quota env store req c l
  · intro c l; rw [he2]; exact persistV2_not_quota env store req c l
  · rw [he1]; exact provisionV1_head env store req

/-- C10 witness: with a throwing count, an owner already holding two
deployments (the default limit) still gets through to provisioning. -/
theorem c10_count_failure_skips_quota_witness :
    envCountFail.countFails = true
    ∧ deployV1 envCountFail [dAlice, dAlice2] reqKhan
        = provisionV1 envCountFail [dAlice, dAlice2] reqKhan
    ∧ (deployV1 envCountFail [dAlice, dAlice2] reqKhan).2.1.head?
        = some (.createApp (genName envCountFail reqKhan)) :=
  ⟨rfl,
    (c10_count_failure_skips_quota envCountFail [dAlice, dAlice2] reqKhan rfl
      (by decide) (by decide)).2.1,
    (c10_count_failure_skips_quota envCountFail [dAlice, dAlice2] reqKhan rfl
      (by decide) (by decide)).2.2.2.2.2⟩

/-- C1: when the count succeeds, the quota check allows the deployment iff
the count of the owner's prior deployments (owner compared
case-insensitively, given the stored-lowercase invariant) is strictly below
the limit; the limit is 2 unless the owner appears in the fetched allow-list
document, in which case the entry's limit applies, falling back to 5 when it
is absent or zero; a failed fetch leaves the default 2 without rejecting the
request for that reason; and a quota rejection is answered with a message
carrying both the current count and the limit. -/
theorem c1_quota_spec (env : Env) (store : List Deployment) (req : DeployRequest)
    (hcount : env.countFails = false)
    (h1 : jsTruthy req.username = true) (h2 : jsTruthy req.session_id = true)
    (hlower : ∀ d ∈ store, d.username = strLower d.username) :
    (quotaCheck store env.countFails env.proFetch (optStr req.username) = .allowed
      ↔ countDocuments store (strLower (optStr req.username))
          < userLimit env.proFetch (optStr req.username))
    ∧ countDocuments store (strLower (optStr req.username))
        = (store.filter (fun d =>
            strLower d.username == strLower (optStr req.username))).length
    ∧ (∀ e, env.proFetch = .error e →
        userLimit env.proFetch (optStr req.username) = 2)
    ∧ (∀ users, env.proFetch = .ok users →
        ((users.find? (fun u => strLower u.username
            == strLower (optStr req.username))) = none →
          userLimit env.proFetch (optStr req.username) = 2)
        ∧ (∀ u, (users.find? (fun u => strLower u.username
            == strLower (optStr req.username))) = some u →
          userLimit env.proFetch (optStr req.username)
            = if u.limit = none ∨ u.limit = some 0 then 5 else u.limit.getD 0))
    ∧ (countDocuments store (strLower (optStr req.username))
          < userLimit env.proFetch (optStr req.username) →
        (∀ c l, (deployV1 env store req).1 ≠ .errQuota c l)
        ∧ (∀ c l, (deployV2 env store req).1 ≠ .errQuota c l))
    ∧ (¬ countDocuments store (strLower (optStr req.username))
          < userLimit env.proFetch (optStr req.username) →
        deployV1 env store req
          = (.errQuota (countDocuments store (strLower (optStr req.username)))
              (userLimit env.proFetch (optStr req.username)), [], store)
        ∧ deployV2 env store req
          = (.errQuota (countDocuments store (strLower (optStr req.username)))
              (userLimit env.proFetch (optStr req.username)), [], store))
    ∧ (∀ c l, (deployV2 env store req).1 = .errQuota c l →
        renderError (deployV2 env store req).1 = some (quotaMessage c l)
        ∧ hasSubstring (quotaMessage c l) (toString c)
        ∧ hasSubstring (quotaMessage c l) (toString l)) := by
  refine ⟨?_, ?_, ?_, ?_, ?_, ?_, ?_⟩
  · rw [hcount]
    constructor
    · intro h
      by_contra hh
      rw [quotaCheck_of_ge _ _ _ hh] at h
      exact QuotaOutcome.noConfusion h
    · intro h
      exact quotaCheck_of_lt _ _ _ h
  · unfold countDocuments
    congr 1
    apply List.filter_congr
    intro d hd
    rw [← hlower d hd]
  · intro e he
    rw [he]
    rfl
  · intro users hfetch
    refine ⟨?_, ?_⟩
    · intro hfind
      simp [userLimit, hfetch, hfind]
    · intro u hfind
      rcases hu : u.limit with _ | n
      · simp [userLimit, hfetch, hfind, hu]
      · rcases n with _ | m
        · simp [userLimit, hfetch, hfind, hu]
        · simp [userLimit, hfetch, hfind, hu]
  · intro hlt
    have hqa : quotaCheck store env.countFails env.proFetch (optStr req.username)
        = .allowed := by
      rw [hcount]
      exact quotaCheck_of_lt _ _ _ hlt
    have he1 := deployV1_eq_provision env store req h1 h2
      (not_rejected_of_allowed_or_skipped (Or.inl hqa))
    have he2 := deployV2_eq_persist env store req h1 h2
      (not_rejected_of_allowed_or_skipped (Or.inl hqa))
    refine ⟨?_, ?_⟩
    · intro c l; rw [he1]; exact provisionV1_not_quota env store req c l
    · intro c l; rw [he2]; exact persistV2_not_quota env store req c l
  · intro hge
    exact ⟨deployV1_quota_reject env store req h1 h2 hcount hge,
      deployV2_quota_reject env store req h1 h2 hcount hge⟩
  · intro c l hcl
    refine ⟨by rw [hcl]; rfl, (quotaMessage_mentions c l).1, (quotaMessage_mentions c l).2⟩

/-- C1 witness: a concrete owner with one prior deployment, failed allow-list
fetch, hence limit 2: the quota check allows. -/
theorem c1_quota_spec_witness :
    envOk.countFails = false
    ∧ (∀ d ∈ [dAlice], d.username = strLower d.username)
    ∧ (quotaCheck [dAlice] envOk.countFails envOk.proFetch (optStr reqKhan.username)
        = .allowed
      ↔ countDocuments [dAlice] (strLower (optStr reqKhan.username))
          < userLimit envOk.proFetch (optStr reqKhan.username)) :=
  ⟨rfl, by decide,
    (c1_quota_spec envOk [dAlice] reqKhan rfl (by decide) (by decide) (by decide)).1⟩

end BotDeployer
